import Mathlib

/-!
Shallow embedding of the droidboot fastboot command engine
(`aboot.c`: cmd_flash, cmd_erase, cmd_oem, cmd_boot, cmd_reboot,
cmd_continue; `droidboot.c`: countdown, disable_autoboot, try_update_sw).

External collaborators (libdiskconfig partition directory, block-device
validity checks, popen/fwrite pipes, execute_command exit statuses,
superblock reads, gzip decompression) are modelled as an environment
record `Env` of oracles; each command handler becomes a pure function
from the environment and its arguments to an output record describing
the terminal protocol reply and the externally visible effects
(process death via die(), bytes streamed to the device, external
commands executed, device nodes opened).
-/

/-- Partition type code for Linux partitions (PC_PART_TYPE_LINUX from
diskconfig, 0x83). -/
def PC_PART_TYPE_LINUX : Nat := 0x83

/-- ext2/3/4 superblock magic (EXT3_SUPER_MAGIC, 0xEF53). -/
def EXT3_SUPER_MAGIC : Nat := 0xEF53

/-- Byte offset of the ext superblock on the device
(EXT_SUPERBLOCK_OFFSET in aboot.c). -/
def EXT_SUPERBLOCK_OFFSET : Nat := 1024

/-- A terminal fastboot protocol reply: fastboot_okay carries an
optional message, fastboot_fail carries a reason string. -/
inductive Reply where
  | okay : String → Reply
  | fail : String → Reply
deriving DecidableEq, Repr

/-- A record of the partition directory (struct part_info): the fields
cmd_erase/cmd_flash consult are the name and the partition type code. -/
structure PartInfo where
  name : String
  ptype : Nat
deriving DecidableEq, Repr

/-- Outcome of the lseek+read of the superblock in cmd_flash: the seek
can fail, the read can fail, or a magic value is obtained. -/
inductive SbRead where
  | seekFail : SbRead
  | readFail : SbRead
  | okRead : Nat → SbRead
deriving DecidableEq, Repr

/-- The external world as seen by the handlers: the disk device node
from disk_layout.conf, the partition directory lookups (find_part,
find_part_device), block-device validation, allocation success for
asprintf, popen success, the number of bytes the dd pipeline accepts
from fwrite, exit statuses of execute_command per command line, open()
success per device node, the superblock read outcome per device node,
the external gzip decompressor, and success flags for
write_stitch_image, apply_disk_config and the kexec hand-off. -/
structure Env where
  diskDevice : String
  findPart : String → Option PartInfo
  findPartDevice : String → Option String
  isValidBlkdev : String → Bool
  allocOk : Bool
  popenOk : Bool
  pipeCapacity : Nat
  exec : String → Int
  openOk : String → Bool
  readSb : String → SbRead
  gunzip : List Nat → List Nat
  writeStitchOk : Bool
  applyDiskOk : Bool
  kexecOk : Bool

/-- Externally visible outcome of one cmd_flash execution. -/
structure FlashOut where
  reply : Reply
  died : Bool
  stitched : Bool
  pipeOpened : Bool
  usedGzip : Bool
  piped : List Nat
  deviceWritten : List Nat
  openedDevice : Bool
  extChecksRun : Bool
  execCmds : List String
deriving DecidableEq, Repr

/-- All-effects-absent base output; branches override the fields they
touch. -/
def FlashOut.base : FlashOut :=
  { reply := Reply.okay "", died := false, stitched := false,
    pipeOpened := false, usedGzip := false, piped := [],
    deviceWritten := [], openedDevice := false, extChecksRun := false,
    execCmds := [] }

/-- The gzip-header test of cmd_flash, exactly as the C condition
`sz > 2 && data[0] == 0x1f && data[1] == 0x8b && data[3] == 8`,
with out-of-range indexing totalised to 0 (List.getD). -/
def gzipCheck (data : List Nat) : Bool :=
  decide (data.length > 2) && (data.getD 0 0 == 0x1f)
    && (data.getD 1 0 == 0x8b) && (data.getD 3 0 == 8)

/-- The same gzip-header test with the C short-circuit evaluation order
made explicit and every buffer access done through Option-returning
indexing: the result is `none` exactly when the C code would read past
the end of the payload buffer. -/
def gzipCheckOpt (data : List Nat) : Option Bool :=
  if data.length > 2 then
    match data.get? 0 with
    | none => none
    | some b0 =>
      if b0 = 0x1f then
        match data.get? 1 with
        | none => none
        | some b1 =>
          if b1 = 0x8b then
            match data.get? 3 with
            | none => none
            | some b3 => some (b3 == 8)
          else some false
      else some false
  else some false

/-- Structural prefix test on character lists (the semantics of the C
strncmp(s, p, strlen(p)) == 0 comparisons). -/
def leadsChars : List Char → List Char → Bool
  | [], _ => true
  | _ :: _, [] => false
  | a :: as, b :: bs => a == b && leadsChars as bs

/-- Prefix test on strings, via their character lists. -/
def strLeads (p s : String) : Bool := leadsChars p.data s.data

/-- The resize2fs command line built in cmd_flash. -/
def resizeCmd (device : String) : String :=
  "/system/bin/resize2fs -F " ++ device

/-- The e2fsck command line built in cmd_flash. -/
def fsckCmd (device : String) : String :=
  "/system/bin/e2fsck -C 0 -fy " ++ device

/-- The tune2fs command line built in cmd_flash. -/
def tuneCmd (device : String) : String :=
  "/system/bin/tune2fs -C 1 " ++ device

/-- The make_ext4fs command line built in cmd_erase. -/
def mkfsCmd (name device : String) : String :=
  "/system/bin/make_ext4fs -L " ++ name ++ " " ++ device

/-- The do_ext_checks block of cmd_flash: resize2fs, then e2fsck
(whose exit status, bound to `ret` in the C code, is success exactly
when it is 0 or 1), then tune2fs; the first failure produces the
corresponding fastboot_fail reason. -/
def extChecks (env : Env) (device : String) (b0 : FlashOut) : FlashOut :=
  if env.allocOk = false then
    { b0 with
      extChecksRun := true,
      reply := Reply.fail "memory allocation error" }
  else if env.exec (resizeCmd device) ≠ 0 then
    { b0 with
      extChecksRun := true,
      execCmds := [resizeCmd device],
      reply := Reply.fail "could not resize filesystem to fill disk" }
  else if env.exec (fsckCmd device) < 0 ∨ env.exec (fsckCmd device) > 1 then
    { b0 with
      extChecksRun := true,
      execCmds := [resizeCmd device, fsckCmd device],
      reply := Reply.fail "fsck of filesystem failed" }
  else if env.exec (tuneCmd device) ≠ 0 then
    { b0 with
      extChecksRun := true,
      execCmds := [resizeCmd device, fsckCmd device, tuneCmd device],
      reply := Reply.fail "tune2fs failed" }
  else
    { b0 with
      extChecksRun := true,
      execCmds := [resizeCmd device, fsckCmd device, tuneCmd device],
      reply := Reply.okay "" }

/-- The effect record of a completed fwrite through the dd pipeline:
`data` streamed into the pipe, the device receiving the decompressed
or raw bytes according to the gzip detection. -/
def writeBase (env : Env) (data : List Nat) (gz opened : Bool) : FlashOut :=
  { FlashOut.base with
    usedGzip := gz,
    pipeOpened := true,
    piped := data,
    deviceWritten := if gz then env.gunzip data else data,
    openedDevice := opened }

/-- The tail of cmd_flash after a fully successful fwrite+pclose+sync:
the superblock probe gating do_ext_checks on a named Linux-type
partition, then the repair sequence or the final fastboot_okay. -/
def extPhase (env : Env) (device : String) (ptn : Option PartInfo)
    (data : List Nat) (gz : Bool) (opened : Bool) : FlashOut :=
  match ptn with
  | none => { writeBase env data gz opened with reply := Reply.okay "" }
  | some p =>
    if p.ptype = PC_PART_TYPE_LINUX then
      if env.openOk device = false then
        { writeBase env data gz opened with
          reply := Reply.fail "could not open device node" }
      else
        match env.readSb device with
        | SbRead.seekFail =>
          { writeBase env data gz true with
            reply := Reply.fail "could not seek to superblock offset" }
        | SbRead.readFail =>
          { writeBase env data gz true with
            reply := Reply.fail "couldn't read superblock" }
        | SbRead.okRead magic =>
          if magic = EXT3_SUPER_MAGIC then
            extChecks env device (writeBase env data gz true)
          else
            { writeBase env data gz true with reply := Reply.okay "" }
    else { writeBase env data gz opened with reply := Reply.okay "" }

/-- cmd_flash after destination resolution: block-device validation,
gzip detection, the popen/fwrite streaming with its failure exits,
the partition-table resync when writing the raw disk device, then
`extPhase`. -/
def flashToDevice (env : Env) (device : String) (ptn : Option PartInfo)
    (data : List Nat) : FlashOut :=
  if env.isValidBlkdev device = false then
    { FlashOut.base with
      reply := Reply.fail "invalid destination node. partition disks?" }
  else if env.allocOk = false then
    { FlashOut.base with
      usedGzip := gzipCheck data,
      reply := Reply.fail "memory allocation error" }
  else if env.popenOk = false then
    { FlashOut.base with
      usedGzip := gzipCheck data,
      reply := Reply.fail "popen failure" }
  else if data.length ≠ (data.take env.pipeCapacity).length then
    { writeBase env (data.take env.pipeCapacity) (gzipCheck data) false with
      reply := Reply.fail "image write failure" }
  else if device = env.diskDevice then
    if env.openOk device = false then
      { writeBase env data (gzipCheck data) false with
        reply := Reply.fail "could not open device node" }
    else extPhase env device ptn data (gzipCheck data) true
  else extPhase env device ptn data (gzipCheck data) false

/-- cmd_flash (aboot.c): destination resolution — the literal "disk"
device, an "osip" stitched-image index handled externally, or a named
partition resolved through the partition directory — then the shared
write path `flashToDevice`. -/
def cmd_flash (env : Env) (partName : String) (data : List Nat) : FlashOut :=
  if partName = "disk" then
    flashToDevice env env.diskDevice none data
  else if strLeads "osip" partName = true then
    if env.writeStitchOk then
      { FlashOut.base with stitched := true, reply := Reply.okay "" }
    else
      { FlashOut.base with
        stitched := true,
        reply := Reply.fail "write_stitch_image failure" }
  else
    match env.findPartDevice partName with
    | none => { FlashOut.base with
        reply := Reply.fail "unknown partition specified" }
    | some device => flashToDevice env device (env.findPart partName) data

/-- Externally visible outcome of one cmd_erase execution. -/
structure EraseOut where
  reply : Reply
  died : Bool
  openedDevice : Bool
  execCmds : List String
deriving DecidableEq, Repr

/-- cmd_erase (aboot.c): partition lookup, device-node lookup (whose
failure calls die() after the failure reply), block-device validation,
then the per-type switch: Linux partitions get a fresh make_ext4fs,
every other type is rejected as unsupported. -/
def cmd_erase (env : Env) (partName : String) : EraseOut :=
  match env.findPart partName with
  | none =>
    { reply := Reply.fail "unknown partition name", died := false,
      openedDevice := false, execCmds := [] }
  | some ptn =>
    match env.findPartDevice ptn.name with
    | none =>
      { reply := Reply.fail "find_part_device failed!", died := true,
        openedDevice := false, execCmds := [] }
    | some pdevice =>
      if env.isValidBlkdev pdevice = false then
        { reply := Reply.fail "invalid destination node. partition disks?",
          died := false, openedDevice := false, execCmds := [] }
      else if ptn.ptype = PC_PART_TYPE_LINUX then
        if env.allocOk = false then
          { reply := Reply.fail "memory allocation error", died := false,
            openedDevice := false, execCmds := [] }
        else if env.exec (mkfsCmd ptn.name pdevice) ≠ 0 then
          { reply := Reply.fail "make_ext4fs failed", died := false,
            openedDevice := false, execCmds := [mkfsCmd ptn.name pdevice] }
        else
          { reply := Reply.okay "", died := false, openedDevice := false,
            execCmds := [mkfsCmd ptn.name pdevice] }
      else
        { reply := Reply.fail "Unsupported partition type", died := false,
          openedDevice := false, execCmds := [] }

/-- Outcome of the simple handlers (oem, boot, reboot, continue):
`reply = none` means control was transferred away without a terminal
reply (successful kexec in cmd_continue). -/
structure HOut where
  reply : Option Reply
  died : Bool
  execCmds : List String
deriving DecidableEq, Repr

/-- The whitespace trimming cmd_oem applies to its argument before
dispatching (the `while (*arg == ' ') arg++;` loop). -/
def oemTrim (arg : String) : String :=
  arg.dropWhile (fun c => c == ' ')

/-- The command line cmd_oem hands to execute_command for the
"system" subcommand: the trimmed argument after the 6-character
keyword, with further leading spaces skipped. -/
def oemRest (arg : String) : String :=
  ((oemTrim arg).drop 6).dropWhile (fun c => c == ' ')

/-- cmd_oem (aboot.c): trims leading spaces, dispatches on the
"system" and "partition" subcommand prefixes, otherwise fails with
"unknown OEM command". -/
def cmd_oem (env : Env) (arg : String) : HOut :=
  if strLeads "system" (oemTrim arg) = true then
    if env.exec (oemRest arg) ≠ 0 then
      { reply := some (Reply.fail "OEM system command failed"),
        died := false, execCmds := [oemRest arg] }
    else
      { reply := some (Reply.okay ""), died := false,
        execCmds := [oemRest arg] }
  else if strLeads "partition" (oemTrim arg) = true then
    if env.applyDiskOk then
      { reply := some (Reply.okay ""), died := false, execCmds := [] }
    else
      { reply := some (Reply.fail "apply_disk_config error"),
        died := false, execCmds := [] }
  else
    { reply := some (Reply.fail "unknown OEM command"), died := false,
      execCmds := [] }

/-- cmd_boot (aboot.c): stubbed, always the same failure reply. -/
def cmd_boot : HOut :=
  { reply := some (Reply.fail "boot command stubbed on this platform!"),
    died := false, execCmds := [] }

/-- cmd_reboot (aboot.c): acknowledges success before syncing and
issuing the restart; it never calls die(). -/
def cmd_reboot : HOut :=
  { reply := some (Reply.okay ""), died := false, execCmds := [] }

/-- cmd_continue (aboot.c): start_default_kernel() transfers control
away when the kexec succeeds; if it returns, the handler reports
failure. -/
def cmd_continue (env : Env) : HOut :=
  if env.kexecOk then { reply := none, died := false, execCmds := [] }
  else
    { reply := some (Reply.fail "Unable to boot default kernel!"),
      died := false, execCmds := [] }

/-- Result of one countdown() run (droidboot.c): the return value
(the autoboot_enabled flag as sampled after the loop), the number of
loop-body iterations executed, the flag value after return (always
cleared), and whether ui_reset_progress ran before return. -/
structure CdOut where
  ret : Bool
  iterations : Nat
  flagAfter : Bool
  progressReset : Bool
deriving DecidableEq, Repr

/-- Whether the autoboot_enabled flag is still set when the loop
condition is checked for the i-th time, given the asynchronous
cancellation schedule: `none` means no key-press ever clears the flag;
`some k` means disable_autoboot runs during the sleep of loop
iteration k, so checks 0..k observe the flag set and every later
check observes it cleared. -/
def cdEnabled (cancelAt : Option Nat) (i : Nat) : Bool :=
  match cancelAt with
  | none => true
  | some k => decide (i ≤ k)

/-- The countdown for-loop: `remaining` counts the seconds left, `i`
the number of iterations already executed. The loop exits when the
seconds run out or the flag is observed cleared; it returns the
iteration count and the flag value at exit (the value cmd returns
before the flag is forced to 0). -/
def cdRun : Nat → Nat → Option Nat → Nat × Bool
  | 0, i, c => (i, cdEnabled c i)
  | (r + 1), i, c =>
    if cdEnabled c i then cdRun r (i + 1) c else (i, false)

/-- countdown(action, seconds) from droidboot.c: sets
autoboot_enabled, shows the progress bar, runs the polling loop, calls
ui_reset_progress, samples the flag as the return value, and clears
the flag. -/
def countdown (seconds : Nat) (cancelAt : Option Nat) : CdOut :=
  { ret := (cdRun seconds 0 cancelAt).2,
    iterations := (cdRun seconds 0 cancelAt).1,
    flagAfter := false,
    progressReset := true }

/-- Externally visible outcome of one try_update_sw execution
(droidboot.c): return value, the g_update_location state after the
call, and which phases ran (detection, provisioning, immediate apply)
plus whether any storage write path was entered. -/
structure TryOut where
  ret : Int
  newLoc : Option String
  detectRan : Bool
  provisionRan : Bool
  applyRan : Bool
  storageTouched : Bool
deriving DecidableEq, Repr

/-- The external collaborators of try_update_sw: what
detect_sw_update returns, whether the countdown completes (true) or is
cancelled, whether provisioning_checks succeeds, and the
g_update_pause configuration flag. -/
structure UpdEnv where
  detect : Option String
  cdComplete : Bool
  provisionOk : Bool
  updatePause : Bool
deriving DecidableEq, Repr

/-- try_update_sw (droidboot.c): returns 0 at once when
g_update_location is already set; otherwise runs detection, the
optional countdown, then under the action mutex provisioning and
either immediate apply or the deferred stash into g_update_location
(the only branch that resets ret to 0). -/
def try_update_sw (loc : Option String) (env : UpdEnv)
    (useCountdown : Bool) : TryOut :=
  match loc with
  | some l =>
    { ret := 0, newLoc := some l, detectRan := false,
      provisionRan := false, applyRan := false, storageTouched := false }
  | none =>
    match env.detect with
    | none =>
      { ret := 0, newLoc := none, detectRan := true,
        provisionRan := false, applyRan := false, storageTouched := false }
    | some u =>
      if useCountdown ∧ env.cdComplete = false then
        { ret := 0, newLoc := none, detectRan := true,
          provisionRan := false, applyRan := false, storageTouched := false }
      else if env.provisionOk = false then
        { ret := -1, newLoc := none, detectRan := true,
          provisionRan := true, applyRan := false, storageTouched := true }
      else if env.updatePause = false then
        { ret := -1, newLoc := none, detectRan := true,
          provisionRan := true, applyRan := true, storageTouched := true }
      else
        { ret := 0, newLoc := some u, detectRan := true,
          provisionRan := true, applyRan := false, storageTouched := true }

/-- A 10-byte payload that does not carry the gzip magic. -/
def data10 : List Nat := [1, 2, 3, 4, 5, 6, 7, 8, 9, 10]

/-- Concrete world with one partition "boot" of (unsupported)
partition type 0x80, a healthy block device and an accepting pipe. -/
def envBoot : Env :=
  { diskDevice := "/dev/mmcblk0"
    findPart := fun n =>
      if n = "boot" then some { name := "boot", ptype := 0x80 } else none
    findPartDevice := fun n =>
      if n = "boot" then some "/dev/mmcblk0p1" else none
    isValidBlkdev := fun _ => true
    allocOk := true
    popenOk := true
    pipeCapacity := 1000000
    exec := fun _ => 0
    openOk := fun _ => true
    readSb := fun _ => SbRead.okRead 0
    gunzip := fun l => l
    writeStitchOk := true
    applyDiskOk := true
    kexecOk := false }

/-- Concrete world in which the partition directory knows the "cache"
partition but its device-node lookup fails — the situation in which
cmd_erase calls die(). -/
def envDie : Env :=
  { diskDevice := "/dev/mmcblk0"
    findPart := fun n =>
      if n = "cache" then some { name := "cache", ptype := 0x83 } else none
    findPartDevice := fun _ => none
    isValidBlkdev := fun _ => true
    allocOk := true
    popenOk := true
    pipeCapacity := 1000000
    exec := fun _ => 0
    openOk := fun _ => true
    readSb := fun _ => SbRead.okRead 0
    gunzip := fun l => l
    writeStitchOk := true
    applyDiskOk := true
    kexecOk := false }

/-- Concrete world with a Linux-type "data" partition whose on-disk
superblock carries the ext magic, and whose e2fsck run exits with
status 2 (every other external command exits 0). -/
def envFsck2 : Env :=
  { diskDevice := "/dev/mmcblk0"
    findPart := fun n =>
      if n = "data" then some { name := "data", ptype := 0x83 } else none
    findPartDevice := fun n =>
      if n = "data" then some "/dev/mmcblk0p9" else none
    isValidBlkdev := fun _ => true
    allocOk := true
    popenOk := true
    pipeCapacity := 1000000
    exec := fun c => if c = fsckCmd "/dev/mmcblk0p9" then 2 else 0
    openOk := fun _ => true
    readSb := fun _ => SbRead.okRead 0xEF53
    gunzip := fun l => l
    writeStitchOk := true
    applyDiskOk := true
    kexecOk := false }

/-- Concrete world with a Linux-type "data" partition that lacks the
ext superblock magic (declared but not yet formatted). -/
def envNoMagic : Env :=
  { diskDevice := "/dev/mmcblk0"
    findPart := fun n =>
      if n = "data" then some { name := "data", ptype := 0x83 } else none
    findPartDevice := fun n =>
      if n = "data" then some "/dev/mmcblk0p9" else none
    isValidBlkdev := fun _ => true
    allocOk := true
    popenOk := true
    pipeCapacity := 1000000
    exec := fun _ => 0
    openOk := fun _ => true
    readSb := fun _ => SbRead.okRead 0
    gunzip := fun l => l
    writeStitchOk := true
    applyDiskOk := true
    kexecOk := false }

/-- Concrete world whose dd pipeline accepts only 4 bytes before
going down — every longer fwrite is a short write. -/
def envShort : Env :=
  { diskDevice := "/dev/mmcblk0"
    findPart := fun n =>
      if n = "data" then some { name := "data", ptype := 0x83 } else none
    findPartDevice := fun n =>
      if n = "data" then some "/dev/mmcblk0p9" else none
    isValidBlkdev := fun _ => true
    allocOk := true
    popenOk := true
    pipeCapacity := 4
    exec := fun _ => 0
    openOk := fun _ => true
    readSb := fun _ => SbRead.okRead 0xEF53
    gunzip := fun l => l
    writeStitchOk := true
    applyDiskOk := true
    kexecOk := false }

/-- A 5-byte payload carrying the gzip magic and the byte the C code
tests at index 3 equal to 8. -/
def gzData : List Nat := [0x1f, 0x8b, 7, 8, 9]

/-- Destination resolution of cmd_flash for a plain partition name:
not "disk", not an osip index, device node found. -/
theorem cmd_flash_named (env : Env) (partName device : String)
    (data : List Nat) (h1 : partName ≠ "disk")
    (h2 : strLeads "osip" partName = false)
    (h3 : env.findPartDevice partName = some device) :
    cmd_flash env partName data
      = flashToDevice env device (env.findPart partName) data := by
  simp [cmd_flash, h1, h2, h3]

/-- When the destination is valid, allocation and popen succeed, the
pipe accepts the whole payload and the destination is not the raw
disk device, the write path reduces to the post-write phase. -/
theorem flashToDevice_write (env : Env) (device : String)
    (ptn : Option PartInfo) (data : List Nat)
    (hv : env.isValidBlkdev device = true) (ha : env.allocOk = true)
    (hp : env.popenOk = true) (hc : data.length ≤ env.pipeCapacity)
    (hd : device ≠ env.diskDevice) :
    flashToDevice env device ptn data
      = extPhase env device ptn data (gzipCheck data) false := by
  have ht : data.take env.pipeCapacity = data := List.take_of_length_le hc
  simp [flashToDevice, hv, ha, hp, ht, hd]

/-- The repair sequence never touches the died flag. -/
theorem extChecks_died (env : Env) (device : String) (b0 : FlashOut) :
    (extChecks env device b0).died = b0.died := by
  unfold extChecks
  repeat' split
  all_goals rfl

/-- The post-write phase never sets the died flag. -/
theorem extPhase_died (env : Env) (device : String)
    (ptn : Option PartInfo) (data : List Nat) (gz opened : Bool) :
    (extPhase env device ptn data gz opened).died = false := by
  unfold extPhase
  repeat' split
  all_goals first | rfl | (rw [extChecks_died]; rfl)

/-- The whole flash write path never sets the died flag. -/
theorem flashToDevice_died (env : Env) (device : String)
    (ptn : Option PartInfo) (data : List Nat) :
    (flashToDevice env device ptn data).died = false := by
  unfold flashToDevice
  repeat' split
  all_goals first | rfl | rw [extPhase_died]

/-- cmd_flash never calls die(). -/
theorem cmd_flash_died (env : Env) (partName : String) (data : List Nat) :
    (cmd_flash env partName data).died = false := by
  unfold cmd_flash
  repeat' split
  all_goals first | rfl | rw [flashToDevice_died]

/-- The repair sequence only touches the reply, the executed-command
list and the extChecksRun flag. -/
theorem extChecks_fields (env : Env) (device : String) (b0 : FlashOut) :
    (extChecks env device b0).usedGzip = b0.usedGzip ∧
    (extChecks env device b0).deviceWritten = b0.deviceWritten ∧
    (extChecks env device b0).piped = b0.piped ∧
    (extChecks env device b0).pipeOpened = b0.pipeOpened := by
  unfold extChecks
  repeat' split
  all_goals exact ⟨rfl, rfl, rfl, rfl⟩

/-- The repair sequence always marks itself as having run. -/
theorem extChecks_run (env : Env) (device : String) (b0 : FlashOut) :
    (extChecks env device b0).extChecksRun = true := by
  unfold extChecks
  repeat' split
  all_goals rfl

/-- The post-write phase reports exactly the gzip-routing decision it
was given. -/
theorem extPhase_usedGzip (env : Env) (device : String)
    (ptn : Option PartInfo) (data : List Nat) (gz opened : Bool) :
    (extPhase env device ptn data gz opened).usedGzip = gz := by
  unfold extPhase
  repeat' split
  all_goals first | rfl | (rw [(extChecks_fields env device _).1]; rfl)

/-- The post-write phase leaves the device content produced by the
write untouched. -/
theorem extPhase_deviceWritten (env : Env) (device : String)
    (ptn : Option PartInfo) (data : List Nat) (gz opened : Bool) :
    (extPhase env device ptn data gz opened).deviceWritten
      = (if gz then env.gunzip data else data) := by
  unfold extPhase
  repeat' split
  all_goals
    first
      | (rw [(extChecks_fields env device _).2.1]
         simp_all [writeBase, FlashOut.base])
      | simp_all [writeBase, FlashOut.base]

/-- The repair sequence runs exactly when the destination is a named
Linux-type partition whose device opens and whose superblock read
yields the ext magic. -/
theorem extPhase_run_iff (env : Env) (device : String)
    (ptn : Option PartInfo) (data : List Nat) (gz opened : Bool) :
    (extPhase env device ptn data gz opened).extChecksRun = true ↔
      ∃ p, ptn = some p ∧ p.ptype = PC_PART_TYPE_LINUX ∧
        env.openOk device = true ∧
        env.readSb device = SbRead.okRead EXT3_SUPER_MAGIC := by
  unfold extPhase
  repeat' split
  all_goals simp_all [writeBase, FlashOut.base, extChecks_run]

/-- Characterisation of the totalised gzip test through safe indexing:
because 8 differs from the out-of-range default 0, the test accepts
exactly the payloads whose bytes 0, 1 and 3 all exist and match. -/
theorem gzipCheck_iff_get (data : List Nat) :
    gzipCheck data = true ↔
      (data.get? 0 = some 0x1f ∧ data.get? 1 = some 0x8b ∧
        data.get? 3 = some 8) := by
  rcases data with _ | ⟨a, _ | ⟨b, _ | ⟨c, _ | ⟨d, rest⟩⟩⟩⟩ <;>
    simp [gzipCheck, List.getD, and_assoc]

/-- cmd_oem never calls die(). -/
theorem cmd_oem_died (env : Env) (arg : String) :
    (cmd_oem env arg).died = false := by
  unfold cmd_oem
  repeat' split
  all_goals rfl

/-- cmd_continue never calls die(). -/
theorem cmd_continue_died (env : Env) :
    (cmd_continue env).died = false := by
  unfold cmd_continue
  split <;> rfl

/-- cmd_erase dies exactly when the partition is known but its
device-node lookup fails. -/
theorem cmd_erase_died_iff (env : Env) (partName : String) :
    (cmd_erase env partName).died = true ↔
      ∃ p, env.findPart partName = some p ∧
        env.findPartDevice p.name = none := by
  unfold cmd_erase
  cases h : env.findPart partName with
  | none => simp
  | some p =>
    cases hd : env.findPartDevice p.name with
    | none => simp [hd]
    | some d =>
      repeat' split
      all_goals simp_all

/-- Without a cancellation event the loop runs down all its seconds
with the flag still set. -/
theorem cdRun_none (r : Nat) : ∀ i, cdRun r i none = (i + r, true) := by
  induction r with
  | zero => intro i; simp [cdRun, cdEnabled]
  | succ n ih =>
    intro i
    simp only [cdRun, cdEnabled, if_true]
    rw [ih (i + 1)]
    congr 1
    omega

/-- With a cancellation during iteration k, the loop exits right after
iteration k with the flag observed cleared. -/
theorem cdRun_some (r : Nat) : ∀ i k, i ≤ k + 1 → k + 1 ≤ i + r →
    cdRun r i (some k) = (k + 1, false) := by
  induction r with
  | zero =>
    intro i k h1 h2
    have hik : i = k + 1 := by omega
    subst hik
    simp [cdRun, cdEnabled]
  | succ n ih =>
    intro i k h1 h2
    by_cases h : i ≤ k
    · have he : cdEnabled (some k) i = true := by simp [cdEnabled, h]
      simp only [cdRun, he, if_true]
      exact ih (i + 1) k (by omega) (by omega)
    · have hik : i = k + 1 := by omega
      have he : cdEnabled (some k) i = false := by
        simp only [cdEnabled, decide_eq_false_iff_not]
        omega
      simp only [cdRun, he]
      simp [hik]

/-- C9: once a deferred update path has been stashed in
g_update_location, every further try_update_sw call is a complete
no-op: it returns 0, leaves the stashed path unchanged, and performs
no detection, provisioning, apply, or storage write. -/
theorem C9_update_check_idempotent (l : String) (env : UpdEnv)
    (useCountdown : Bool) :
    try_update_sw (some l) env useCountdown =
      { ret := 0, newLoc := some l, detectRan := false,
        provisionRan := false, applyRan := false,
        storageTouched := false } := rfl

/-- C10: on the 3-byte payload 0x1f 0x8b 0x00 the gzip-header test of
cmd_flash, whose guard only requires length > 2, accesses index 3 —
one past the end of the buffer — so under Option-returning indexing
the test does not evaluate to a value. -/
theorem C10_gzip_header_oob_read :
    ([0x1f, 0x8b, 0] : List Nat).length = 3 ∧
    ([0x1f, 0x8b, 0] : List Nat).get? 0 = some 0x1f ∧
    ([0x1f, 0x8b, 0] : List Nat).get? 1 = some 0x8b ∧
    ([0x1f, 0x8b, 0] : List Nat).get? 3 = none ∧
    gzipCheckOpt [0x1f, 0x8b, 0] = none := by decide

/-- C8: a countdown of D seconds with no cancellation runs exactly D
iterations and returns true; a cancellation during iteration k < D
makes it return false after at most k+1 iterations; in all cases the
armed flag is cleared and the progress indicator reset on exit. -/
theorem C8_countdown_behavior (D : Nat) (cancelAt : Option Nat) :
    (cancelAt = none →
      (countdown D cancelAt).iterations = D ∧
      (countdown D cancelAt).ret = true) ∧
    (∀ k, cancelAt = some k → k < D →
      (countdown D cancelAt).ret = false ∧
      (countdown D cancelAt).iterations ≤ k + 1) ∧
    (countdown D cancelAt).flagAfter = false ∧
    (countdown D cancelAt).progressReset = true := by
  refine ⟨?_, ?_, rfl, rfl⟩
  · intro h
    subst h
    unfold countdown
    rw [cdRun_none D 0]
    exact ⟨by simp, rfl⟩
  · intro k hk hkD
    subst hk
    unfold countdown
    rw [cdRun_some D 0 k (by omega) (by omega)]
    exact ⟨rfl, Nat.le_refl (k + 1)⟩

/-- Concrete check of C8_countdown_behavior: a 3-second countdown
without cancellation runs 3 iterations and completes; with a
cancellation during iteration 1 it is cancelled within 2 iterations. -/
theorem C8_witness :
    (countdown 3 none).iterations = 3 ∧ (countdown 3 none).ret = true ∧
    (countdown 3 (some 1)).ret = false ∧
    (countdown 3 (some 1)).iterations ≤ 2 := by
  have hA := C8_countdown_behavior 3 none
  have hB := C8_countdown_behavior 3 (some 1)
  have h1 := hA.1 rfl
  have h2 := hB.2.1 1 rfl (by decide)
  exact ⟨h1.1, h1.2, h2.1, h2.2⟩

/-- C2 (counterexample): with the "cache" partition known to the
directory but its device-node lookup failing, cmd_erase issues the
failure reply and then terminates the process via die() — a command
error that IS fatal to the process, contradicting the claim. -/
theorem C2_counterexample :
    (cmd_erase envDie "cache").reply = Reply.fail "find_part_device failed!" ∧
    (cmd_erase envDie "cache").died = true := by
  exact ⟨rfl, rfl⟩

/-- C2 (amended): every command error in flash, oem, boot, reboot and
continue results in a failure reply without terminating the process;
cmd_erase also never dies EXCEPT in exactly one case: the partition
lookup succeeds but the device-node lookup fails, where it replies
failure and then calls die(). -/
theorem C2_command_errors_nonfatal_except_erase_device_lookup :
    (∀ env partName data, (cmd_flash env partName data).died = false) ∧
    (∀ env arg, (cmd_oem env arg).died = false) ∧
    cmd_boot.died = false ∧
    cmd_reboot.died = false ∧
    (∀ env, (cmd_continue env).died = false) ∧
    (∀ env partName, (cmd_erase env partName).died = true ↔
      ∃ p, env.findPart partName = some p ∧
        env.findPartDevice p.name = none) :=
  ⟨cmd_flash_died, cmd_oem_died, rfl, rfl, cmd_continue_died,
    cmd_erase_died_iff⟩

/-- C1 (counterexample): flashing a 10-byte non-gzip payload to the
"boot" partition, whose declared type 0x80 is not the supported Linux
type, yields a SUCCESS reply and all 10 bytes written — not the
claimed "Unsupported partition type" failure with zero bytes. -/
theorem C1_counterexample :
    envBoot.findPart "boot" = some { name := "boot", ptype := 0x80 } ∧
    ({ name := "boot", ptype := 0x80 } : PartInfo).ptype
        ≠ PC_PART_TYPE_LINUX ∧
    gzipCheck data10 = false ∧
    data10.length = 10 ∧
    (cmd_flash envBoot "boot" data10).reply = Reply.okay "" ∧
    (cmd_flash envBoot "boot" data10).deviceWritten.length = 10 := by
  exact ⟨rfl, by decide, by decide, rfl, rfl, rfl⟩

/-- C1 (amended): cmd_flash performs no partition-type gating: a
non-gzip payload flashed to a named partition of a non-Linux type
(valid device, working allocation and pipe, full write) is written
raw and the handler replies success with an empty message; no repair
sequence runs. The "Unsupported partition type" failure exists only in
cmd_erase. -/
theorem C1_flash_ignores_partition_type (env : Env)
    (partName device : String) (data : List Nat) (p : PartInfo)
    (h1 : partName ≠ "disk") (h2 : strLeads "osip" partName = false)
    (h3 : env.findPartDevice partName = some device)
    (h4 : env.findPart partName = some p)
    (h5 : p.ptype ≠ PC_PART_TYPE_LINUX)
    (h6 : env.isValidBlkdev device = true) (h7 : env.allocOk = true)
    (h8 : env.popenOk = true) (h9 : data.length ≤ env.pipeCapacity)
    (h10 : device ≠ env.diskDevice) (h11 : gzipCheck data = false) :
    (cmd_flash env partName data).reply = Reply.okay "" ∧
    (cmd_flash env partName data).deviceWritten = data ∧
    (cmd_flash env partName data).extChecksRun = false := by
  rw [cmd_flash_named env partName device data h1 h2 h3,
    flashToDevice_write env device _ data h6 h7 h8 h9 h10, h4]
  unfold extPhase
  simp [h5, h11, writeBase, FlashOut.base]

/-- Concrete check of C1_flash_ignores_partition_type on the "boot"
partition of type 0x80 with the 10-byte payload. -/
theorem C1_witness :
    (cmd_flash envBoot "boot" data10).reply = Reply.okay "" ∧
    (cmd_flash envBoot "boot" data10).deviceWritten = data10 ∧
    (cmd_flash envBoot "boot" data10).extChecksRun = false :=
  C1_flash_ignores_partition_type envBoot "boot" "/dev/mmcblk0p1" data10
    { name := "boot", ptype := 0x80 }
    (by decide) (by decide) rfl rfl (by decide) rfl rfl rfl
    (by decide) (by decide) (by decide)

/-- C3: a partition name unknown to the partition directory makes
cmd_flash fail with "unknown partition specified" and cmd_erase fail
with "unknown partition name" — both reasons start with "unknown
partition" — and neither handler opens a pipe or device node, writes
bytes, or runs an external command. -/
theorem C3_unknown_partition (env : Env) (partName : String)
    (data : List Nat)
    (h1 : env.findPart partName = none)
    (h2 : env.findPartDevice partName = none)
    (h3 : partName ≠ "disk")
    (h4 : strLeads "osip" partName = false) :
    (cmd_flash env partName data).reply
        = Reply.fail "unknown partition specified" ∧
    (cmd_flash env partName data).pipeOpened = false ∧
    (cmd_flash env partName data).deviceWritten = [] ∧
    (cmd_flash env partName data).openedDevice = false ∧
    (cmd_flash env partName data).execCmds = [] ∧
    (cmd_erase env partName).reply = Reply.fail "unknown partition name" ∧
    (cmd_erase env partName).openedDevice = false ∧
    (cmd_erase env partName).execCmds = [] ∧
    strLeads "unknown partition" "unknown partition specified" = true ∧
    strLeads "unknown partition" "unknown partition name" = true := by
  refine ⟨?_, ?_, ?_, ?_, ?_, ?_, ?_, ?_, by decide, by decide⟩ <;>
    simp [cmd_flash, cmd_erase, h1, h2, h3, h4, FlashOut.base]

/-- Concrete check of C3_unknown_partition on the name "recovery",
absent from the directory of envBoot. -/
theorem C3_witness :
    (cmd_flash envBoot "recovery" data10).reply
        = Reply.fail "unknown partition specified" ∧
    (cmd_erase envBoot "recovery").reply
        = Reply.fail "unknown partition name" := by
  have h := C3_unknown_partition envBoot "recovery" data10 rfl rfl
    (by decide) (by decide)
  exact ⟨h.1, h.2.2.2.2.2.1⟩

/-- C4: on the write path of cmd_flash, the payload is routed through
the gzip decompression pipeline exactly when byte 0 is 0x1f, byte 1 is
0x8b and the byte at the fixed offset 3 equals 8; a routed payload
reaches the device through the decompressor, any other payload is
written raw and unchanged. -/
theorem C4_gzip_routing (env : Env) (partName device : String)
    (data : List Nat)
    (h1 : partName ≠ "disk") (h2 : strLeads "osip" partName = false)
    (h3 : env.findPartDevice partName = some device)
    (h6 : env.isValidBlkdev device = true) (h7 : env.allocOk = true)
    (h8 : env.popenOk = true) (h9 : data.length ≤ env.pipeCapacity)
    (h10 : device ≠ env.diskDevice) :
    ((cmd_flash env partName data).usedGzip = true ↔
      (data.get? 0 = some 0x1f ∧ data.get? 1 = some 0x8b ∧
        data.get? 3 = some 8)) ∧
    ((cmd_flash env partName data).usedGzip = true →
      (cmd_flash env partName data).deviceWritten = env.gunzip data) ∧
    ((cmd_flash env partName data).usedGzip = false →
      (cmd_flash env partName data).deviceWritten = data) := by
  rw [cmd_flash_named env partName device data h1 h2 h3,
    flashToDevice_write env device _ data h6 h7 h8 h9 h10,
    extPhase_usedGzip, extPhase_deviceWritten]
  refine ⟨gzipCheck_iff_get data, ?_, ?_⟩
  · intro h
    rw [h]
    simp
  · intro h
    rw [h]
    simp

/-- Concrete check of C4_gzip_routing: a payload with the gzip magic
and method byte is routed through the decompressor, the 10-byte plain
payload is written raw and unchanged. -/
theorem C4_witness :
    (cmd_flash envBoot "boot" gzData).usedGzip = true ∧
    (cmd_flash envBoot "boot" gzData).deviceWritten
        = envBoot.gunzip gzData ∧
    (cmd_flash envBoot "boot" data10).usedGzip = false ∧
    (cmd_flash envBoot "boot" data10).deviceWritten = data10 := by
  have hg := C4_gzip_routing envBoot "boot" "/dev/mmcblk0p1" gzData
    (by decide) (by decide) rfl rfl rfl rfl (by decide) (by decide)
  have hr := C4_gzip_routing envBoot "boot" "/dev/mmcblk0p1" data10
    (by decide) (by decide) rfl rfl rfl rfl (by decide) (by decide)
  have hgz : (cmd_flash envBoot "boot" gzData).usedGzip = true :=
    hg.1.mpr ⟨rfl, rfl, rfl⟩
  have hraw : (cmd_flash envBoot "boot" data10).usedGzip = false := by
    rw [Bool.eq_false_iff]
    intro hcontr
    have hx := hr.1.mp hcontr
    simp [data10] at hx
  exact ⟨hgz, hg.2.1 hgz, hraw, hr.2.2 hraw⟩

/-- On a named Linux-type partition whose device opens and whose
superblock read returns the ext magic, the post-write phase is exactly
the repair sequence. -/
theorem extPhase_linux_magic (env : Env) (device : String)
    (p : PartInfo) (data : List Nat) (gz opened : Bool)
    (hty : p.ptype = PC_PART_TYPE_LINUX)
    (hop : env.openOk device = true)
    (hsb : env.readSb device = SbRead.okRead EXT3_SUPER_MAGIC) :
    extPhase env device (some p) data gz opened
      = extChecks env device (writeBase env data gz true) := by
  unfold extPhase
  simp [hty, hop, hsb]

/-- C5: the repair sequence of cmd_flash runs if and only if the
destination is a named partition declared as the Linux type AND the
superblock read at the fixed offset returns the ext magic; a
Linux-declared partition without the magic skips repair and the
handler still replies success. -/
theorem C5_repair_iff_superblock_magic (env : Env)
    (partName device : String) (data : List Nat) (magic : Nat)
    (h1 : partName ≠ "disk") (h2 : strLeads "osip" partName = false)
    (h3 : env.findPartDevice partName = some device)
    (h6 : env.isValidBlkdev device = true) (h7 : env.allocOk = true)
    (h8 : env.popenOk = true) (h9 : data.length ≤ env.pipeCapacity)
    (h10 : device ≠ env.diskDevice)
    (h11 : env.openOk device = true)
    (h12 : env.readSb device = SbRead.okRead magic) :
    ((cmd_flash env partName data).extChecksRun = true ↔
      ((∃ p, env.findPart partName = some p ∧
          p.ptype = PC_PART_TYPE_LINUX) ∧ magic = EXT3_SUPER_MAGIC)) ∧
    (∀ p, env.findPart partName = some p →
      p.ptype = PC_PART_TYPE_LINUX → magic ≠ EXT3_SUPER_MAGIC →
      (cmd_flash env partName data).extChecksRun = false ∧
      (cmd_flash env partName data).reply = Reply.okay "") := by
  rw [cmd_flash_named env partName device data h1 h2 h3,
    flashToDevice_write env device _ data h6 h7 h8 h9 h10]
  constructor
  · rw [extPhase_run_iff]
    constructor
    · rintro ⟨p, hp, hty, hopen, hsb⟩
      rw [h12] at hsb
      exact ⟨⟨p, hp, hty⟩, SbRead.okRead.inj hsb⟩
    · rintro ⟨⟨p, hp, hty⟩, hm⟩
      exact ⟨p, hp, hty, h11, by rw [h12, hm]⟩
  · intro p hp hty hm
    rw [hp]
    unfold extPhase
    simp [hty, h11, h12, hm, writeBase, FlashOut.base]

/-- Concrete check of C5_repair_iff_superblock_magic: with the magic
present the repair sequence runs; with the magic absent on the same
declared-Linux partition the sequence is skipped and cmd_flash still
succeeds. -/
theorem C5_witness :
    (cmd_flash envFsck2 "data" data10).extChecksRun = true ∧
    (cmd_flash envNoMagic "data" data10).extChecksRun = false ∧
    (cmd_flash envNoMagic "data" data10).reply = Reply.okay "" := by
  have hA := C5_repair_iff_superblock_magic envFsck2 "data"
    "/dev/mmcblk0p9" data10 0xEF53 (by decide) (by decide) rfl rfl rfl
    rfl (by decide) (by decide) rfl rfl
  have hB := C5_repair_iff_superblock_magic envNoMagic "data"
    "/dev/mmcblk0p9" data10 0 (by decide) (by decide) rfl rfl rfl
    rfl (by decide) (by decide) rfl rfl
  have h1 : (cmd_flash envFsck2 "data" data10).extChecksRun = true :=
    hA.1.mpr ⟨⟨{ name := "data", ptype := 0x83 }, rfl, rfl⟩, rfl⟩
  have h2 := hB.2 { name := "data", ptype := 0x83 } rfl rfl (by decide)
  exact ⟨h1, h2.1, h2.2⟩

/-- C6: inside the repair sequence, the filesystem check step
continues (the tune step also runs) exactly when e2fsck exits with
status 0 or 1; any other exit status — negative or 2 and above —
makes cmd_flash reply overall failure "fsck of filesystem failed". -/
theorem C6_fsck_exit_codes (env : Env) (partName device : String)
    (data : List Nat) (p : PartInfo)
    (h1 : partName ≠ "disk") (h2 : strLeads "osip" partName = false)
    (h3 : env.findPartDevice partName = some device)
    (h4 : env.findPart partName = some p)
    (h5 : p.ptype = PC_PART_TYPE_LINUX)
    (h6 : env.isValidBlkdev device = true) (h7 : env.allocOk = true)
    (h8 : env.popenOk = true) (h9 : data.length ≤ env.pipeCapacity)
    (h10 : device ≠ env.diskDevice)
    (h11 : env.openOk device = true)
    (h12 : env.readSb device = SbRead.okRead EXT3_SUPER_MAGIC)
    (h13 : env.exec (resizeCmd device) = 0) :
    ((0 ≤ env.exec (fsckCmd device) ∧ env.exec (fsckCmd device) ≤ 1) →
      (cmd_flash env partName data).execCmds
        = [resizeCmd device, fsckCmd device, tuneCmd device]) ∧
    ((env.exec (fsckCmd device) < 0 ∨ 1 < env.exec (fsckCmd device)) →
      (cmd_flash env partName data).reply
        = Reply.fail "fsck of filesystem failed") := by
  rw [cmd_flash_named env partName device data h1 h2 h3,
    flashToDevice_write env device _ data h6 h7 h8 h9 h10, h4,
    extPhase_linux_magic env device p data (gzipCheck data) false h5 h11 h12]
  unfold extChecks
  rw [h7, h13]
  simp only [Bool.true_eq_false, if_false, ne_eq, not_true_eq_false,
    not_false_eq_true, if_true, if_neg (by simp : ¬(0 : Int) ≠ 0)]
  constructor
  · intro hc
    rw [if_neg (by omega)]
    split <;> rfl
  · intro hc
    rw [if_pos (by omega)]

/-- Concrete check of C6_fsck_exit_codes: with e2fsck exiting 2, the
flash of a genuine ext partition fails with the fsck failure reason. -/
theorem C6_witness :
    (cmd_flash envFsck2 "data" data10).reply
      = Reply.fail "fsck of filesystem failed" := by
  have h := C6_fsck_exit_codes envFsck2 "data" "/dev/mmcblk0p9" data10
    { name := "data", ptype := 0x83 } (by decide) (by decide) rfl rfl
    rfl rfl rfl rfl (by decide) (by decide) rfl rfl (by decide)
  exact h.2 (Or.inr (by decide))

/-- C7: a short write — the pipe accepting fewer bytes than the
payload length — always makes cmd_flash reply "image write failure"
and never a success reply. -/
theorem C7_short_write_fails (env : Env) (partName device : String)
    (data : List Nat)
    (h1 : partName ≠ "disk") (h2 : strLeads "osip" partName = false)
    (h3 : env.findPartDevice partName = some device)
    (h6 : env.isValidBlkdev device = true) (h7 : env.allocOk = true)
    (h8 : env.popenOk = true) (h9 : env.pipeCapacity < data.length) :
    (cmd_flash env partName data).reply = Reply.fail "image write failure" ∧
    ∀ m, (cmd_flash env partName data).reply ≠ Reply.okay m := by
  rw [cmd_flash_named env partName device data h1 h2 h3]
  have hlen : data.length ≠ (data.take env.pipeCapacity).length := by
    rw [List.length_take]
    omega
  unfold flashToDevice
  simp [h6, h7, h8, hlen, h9]

/-- Concrete check of C7_short_write_fails: a pipe that accepts only 4
of the 10 payload bytes produces the image write failure reply. -/
theorem C7_witness :
    (cmd_flash envShort "data" data10).reply
      = Reply.fail "image write failure" :=
  (C7_short_write_fails envShort "data" "/dev/mmcblk0p9" data10
    (by decide) (by decide) rfl rfl rfl rfl (by decide)).1
